import Mathlib

/-!
Shallow embedding of the packet dissection and accounting dispatch of
`net_traffic_processwise/sniffer.cpp`.

A captured frame is modelled as a total byte function `Packet` together
with a separate captured length.  In C the buffer pointer can be
dereferenced past the captured length (it then reads adjacent memory),
so the model does not truncate reads at the captured length; instead
every dissection result records the list of byte offsets that were
dereferenced on the taken path, which makes bounds safety a provable
property of the embedding.
-/

namespace Sniffer

/-- A raw frame buffer: the byte stored at each offset.  Whatever value the
function yields is reduced mod 256 at every read, matching `u_char`. -/
def Packet : Type := Nat → Nat

/-- Read one byte (a C `u_char`) at offset `i`. -/
def byte (p : Packet) (i : Nat) : Nat := p i % 256

/-- Read a 16-bit field stored at offsets `i`, `i + 1` and convert it with
`ntohs` (big-endian to host order): the lower-offset byte is the high byte. -/
def readBE16 (p : Packet) (i : Nat) : Nat := byte p i * 256 + byte p (i + 1)

/-- The macro `IP_HL(ip)` and the bitfield `ip->ip_hl`: the low nibble of the
first IP-header byte, which sits at offset 14 (`SIZE_ETHERNET`). -/
def ip_hl (p : Packet) : Nat := byte p 14 % 16

/-- `size_ip = IP_HL(ip)*4` (sniffer.cpp line 382); the same value as
`IP_header_length = ip->ip_hl * 4` computed at line 310. -/
def size_ip (p : Packet) : Nat := ip_hl p * 4

/-- `ntohs(ip->ip_len)`: the IP total-length field, bytes 16 and 17. -/
def ip_len (p : Packet) : Nat := readBE16 p 16

/-- `ip->ip_p`: the IP protocol byte, offset 23. -/
def ip_p (p : Packet) : Nat := byte p 23

/-- `inet_ntoa` applied to a 4-byte address in network byte order:
dotted-decimal rendering. -/
def inet_ntoa (a b c d : Nat) : String :=
  toString a ++ "." ++ toString b ++ "." ++ toString c ++ "." ++ toString d

/-- `inet_ntoa(ip->ip_src)` (line 391): source address bytes 26 to 29. -/
def src_ip (p : Packet) : String :=
  inet_ntoa (byte p 26) (byte p 27) (byte p 28) (byte p 29)

/-- `inet_ntoa(ip->ip_dst)` (line 392): destination address bytes 30 to 33. -/
def dst_ip (p : Packet) : String :=
  inet_ntoa (byte p 30) (byte p 31) (byte p 32) (byte p 33)

/-- The macro `TH_OFF(tcp)`: high nibble of `th_offx2`, which is at offset 12
of the TCP header; the TCP header is overlaid at `14 + size_ip` (line 435). -/
def th_off (p : Packet) : Nat := byte p (14 + size_ip p + 12) / 16

/-- `size_tcp = TH_OFF(tcp)*4` (line 436). -/
def size_tcp (p : Packet) : Nat := th_off p * 4

/-- `ntohs(tcp->th_sport)` (line 442). -/
def th_sport (p : Packet) : Nat := readBE16 p (14 + size_ip p)

/-- `ntohs(tcp->th_dport)` (line 443). -/
def th_dport (p : Packet) : Nat := readBE16 p (14 + size_ip p + 2)

/-- `size_payload = ntohs(ip->ip_len) - (size_ip + size_tcp)` (line 450),
a C `int`: it may be negative. -/
def size_payload (p : Packet) : Int :=
  (ip_len p : Int) - ((size_ip p : Int) + (size_tcp p : Int))

/-- `ntohs(udp->uh_sport)`: the UDP header is overlaid at
`14 + IP_header_length` (lines 325, 334). -/
def uh_sport (p : Packet) : Nat := readBE16 p (14 + size_ip p)

/-- `ntohs(udp->uh_dport)`. -/
def uh_dport (p : Packet) : Nat := readBE16 p (14 + size_ip p + 2)

/-- `ntohs(udp->uh_ulen)`: the UDP datagram-length field. -/
def uh_ulen (p : Packet) : Nat := readBE16 p (14 + size_ip p + 4)

/-- One call to `update_byte_count(key, len, flag)`; the key is the result of
`std::to_string(port)` and the flag is true for the sent direction. -/
structure AcctCall where
  portKey : String
  byteLen : Int
  isSent : Bool
deriving DecidableEq, Repr

/-- Locality test used at lines 393 to 398: a rendered address is local when
it compares equal to the literal "localhost" or to the configured
`plocal_ip` string. -/
def is_local (s plocal : String) : Bool :=
  s == "localhost" || s == plocal

/-- The value `match_val` computed in `got_packet` (lines 388 to 399). -/
def match_val (src dst plocal : String) : Nat :=
  if is_local src plocal then
    if is_local dst plocal then 3 else 1
  else if is_local dst plocal then 2
  else 0

/-- Header named in a `too_short` report of `dump_UDP_packet`. -/
inductive TruncatedHdr where
  /-- The C string "Ethernet header". -/
  | ethernetHdr
  /-- The C string "IP header". -/
  | ipHdr
  /-- The C string "IP header with options". -/
  | ipOptionsHdr
  /-- The C string "UDP header". -/
  | udpHdr
deriving DecidableEq, Repr

/-- How a `dump_UDP_packet` invocation ended. -/
inductive UDPOutcome where
  /-- Reported `too_short(ts, hdr)` and skipped the packet. -/
  | tooShort (hdr : TruncatedHdr)
  /-- Reported `problem_pkt(ts, "non-UDP packet")` (line 320). -/
  | nonUDP
  /-- Reached the UDP header and ran the `match_val` dispatch. -/
  | done
deriving DecidableEq, Repr

/-- Result of `dump_UDP_packet`: outcome, the `update_byte_count` calls made,
and the byte offsets dereferenced on the taken path. -/
structure DumpResult where
  outcome : UDPOutcome
  calls : List AcctCall
  reads : List Nat
deriving DecidableEq, Repr

/-- `dump_UDP_packet(packet, ts, capture_len, match_val)` (lines 279 to 354).
The code advances the `packet` pointer and decrements `capture_len`; the
model keeps absolute offsets, so a guard `capture_len < n` checked after
skipping `k` bytes appears as `capture_len - k < n` (the subtraction is
exact because the earlier guard already ensured `capture_len ≥ k`).
The `reads` of the final branch are the union of the fields read by the
`match_val` arms (source port, destination port, length field). -/
def dump_UDP_packet (p : Packet) (capture_len : Nat) (mv : Nat) : DumpResult :=
  if capture_len < 14 then
    ⟨.tooShort .ethernetHdr, [], []⟩
  else if capture_len - 14 < 20 then
    ⟨.tooShort .ipHdr, [], []⟩
  else if capture_len - 14 < size_ip p then
    ⟨.tooShort .ipOptionsHdr, [], [14]⟩
  else if ip_p p ≠ 17 then
    ⟨.nonUDP, [], [14, 23]⟩
  else if capture_len - 14 - size_ip p < 8 then
    ⟨.tooShort .udpHdr, [], [14, 23]⟩
  else
    ⟨.done,
     if mv = 1 then [⟨toString (uh_sport p), (uh_ulen p : Int), true⟩]
     else if mv = 2 then [⟨toString (uh_dport p), (uh_ulen p : Int), false⟩]
     else if mv = 3 then
       [⟨toString (uh_sport p), (uh_ulen p : Int), true⟩,
        ⟨toString (uh_dport p), (uh_ulen p : Int), false⟩]
     else [],
     [14, 23, 14 + size_ip p, 14 + size_ip p + 1, 14 + size_ip p + 2,
      14 + size_ip p + 3, 14 + size_ip p + 4, 14 + size_ip p + 5]⟩

/-- How a `got_packet` invocation ended. -/
inductive GotOutcome where
  /-- Printed "Invalid IP header length" (line 384) and returned. -/
  | invalidIPHeaderLen
  /-- Dispatched to `dump_UDP_packet` (line 414), with its outcome. -/
  | udpDispatch (u : UDPOutcome)
  /-- Printed "Protocol: ICMP" and returned. -/
  | protoICMP
  /-- Printed "Protocol: IP" and returned. -/
  | protoIP
  /-- Printed "Protocol: unknown" and returned. -/
  | protoUnknown
  /-- Printed "Invalid TCP header length" (line 438) and returned. -/
  | invalidTCPHeaderLen
  /-- Ran one of the three accounting arms of the TCP dispatch. -/
  | tcpDone
  /-- Printed "tcp packet is not for this host!" (line 461). -/
  | tcpNoMatch
deriving DecidableEq, Repr

/-- Whether the outcome is a parse failure (truncated or malformed header),
as opposed to a completed dispatch or an unhandled-protocol report. -/
def GotOutcome.isParseFailure : GotOutcome → Bool
  | .invalidIPHeaderLen => true
  | .invalidTCPHeaderLen => true
  | .udpDispatch .done => false
  | .udpDispatch _ => true
  | _ => false

/-- Result of `got_packet`: outcome, the `update_byte_count` calls made, and
the byte offsets dereferenced on the taken path. -/
structure GotResult where
  outcome : GotOutcome
  calls : List AcctCall
  reads : List Nat
deriving DecidableEq, Repr

/-- Offsets `got_packet` reads before the protocol switch: `ip_vhl`
(line 382), the source and destination addresses (lines 391 and 392), and
`ip_p` (line 407). -/
def gotBaseReads : List Nat := [14, 26, 27, 28, 29, 30, 31, 32, 33, 23]

/-- `got_packet(args, header, packet)` (lines 360 to 472).  `caplen` is
`header->caplen`; note the code itself uses it only to forward it to
`dump_UDP_packet`.  The ethernet pointer set at line 378 is never
dereferenced, so it contributes no reads. -/
def got_packet (p : Packet) (caplen : Nat) (plocal_ip : String) : GotResult :=
  if size_ip p < 20 then
    ⟨.invalidIPHeaderLen, [], [14]⟩
  else
    let mv := match_val (src_ip p) (dst_ip p) plocal_ip
    if ip_p p = 6 then
      if size_tcp p < 20 then
        ⟨.invalidTCPHeaderLen, [], gotBaseReads ++ [14 + size_ip p + 12]⟩
      else
        ⟨if mv = 1 ∨ mv = 2 ∨ mv = 3 then .tcpDone else .tcpNoMatch,
         if mv = 1 then [⟨toString (th_sport p), size_payload p, true⟩]
         else if mv = 2 then [⟨toString (th_dport p), size_payload p, false⟩]
         else if mv = 3 then
           [⟨toString (th_sport p), size_payload p, true⟩,
            ⟨toString (th_dport p), size_payload p, false⟩]
         else [],
         gotBaseReads ++ [14 + size_ip p + 12, 14 + size_ip p,
           14 + size_ip p + 1, 14 + size_ip p + 2, 14 + size_ip p + 3, 16, 17]⟩
    else if ip_p p = 17 then
      let d := dump_UDP_packet p caplen mv
      ⟨.udpDispatch d.outcome, d.calls, gotBaseReads ++ d.reads⟩
    else if ip_p p = 1 then ⟨.protoICMP, [], gotBaseReads⟩
    else if ip_p p = 0 then ⟨.protoIP, [], gotBaseReads⟩
    else ⟨.protoUnknown, [], gotBaseReads⟩

/-- The 4-way locality classification of the specification. -/
inductive Classification where
  | noMatch
  | sourceIsLocal
  | destinationIsLocal
  | bothLocal
deriving DecidableEq, Repr

/-- Reading of the code's `match_val` value as a `Classification`. -/
def classificationOf (mv : Nat) : Classification :=
  if mv = 1 then .sourceIsLocal
  else if mv = 2 then .destinationIsLocal
  else if mv = 3 then .bothLocal
  else .noMatch

/-- Modelled from the spec, section 4.2: the rule of
`classify(sourceIp, destIp, localAddresses)`. -/
def classify (sourceIp destIp : String) (localAddresses : List String) :
    Classification :=
  if localAddresses.contains sourceIp && localAddresses.contains destIp then
    .bothLocal
  else if localAddresses.contains sourceIp then .sourceIsLocal
  else if localAddresses.contains destIp then .destinationIsLocal
  else .noMatch

/-- Modelled from the spec, section 4.4: the record calls the Dispatch
section prescribes for a classification. -/
def dispatchCalls (c : Classification) (sport dport : Nat) (len : Int) :
    List AcctCall :=
  match c with
  | .noMatch => []
  | .sourceIsLocal => [⟨toString sport, len, true⟩]
  | .destinationIsLocal => [⟨toString dport, len, false⟩]
  | .bothLocal => [⟨toString sport, len, true⟩, ⟨toString dport, len, false⟩]

/-- Every dereferenced offset lies strictly below the captured length. -/
def withinCaplen (reads : List Nat) (caplen : Nat) : Bool :=
  reads.all fun i => i < caplen

/-- Spec section 8 scenario frame: 14-byte Ethernet header + minimal 20-byte
IPv4 header (protocol UDP, source and destination both 127.0.0.1) + 8-byte
UDP header with source port 5000, destination port 6000, length field 8;
42 bytes in total. -/
def udpFrameBytes : List Nat :=
  [0, 0, 0, 0, 0, 0, 0, 0, 0, 0, 0, 0, 8, 0,
   69, 0, 0, 28, 0, 0, 0, 0, 64, 17, 0, 0, 127, 0, 0, 1, 127, 0, 0, 1,
   19, 136, 23, 112, 0, 8, 0, 0]

/-- The spec scenario frame as a buffer. -/
def udpFrame : Packet := fun i => udpFrameBytes.getD i 0

/-- A 54-byte TCP frame: Ethernet + minimal IPv4 header with corrupted
total-length field 30, protocol TCP, source 127.0.0.1, destination
10.0.0.2 + minimal 20-byte TCP header (data offset 5) with source port
5000 and destination port 6000.  Its computed TCP payload length is
30 - 40 = -10. -/
def tcpFrameBytes : List Nat :=
  [0, 0, 0, 0, 0, 0, 0, 0, 0, 0, 0, 0, 8, 0,
   69, 0, 0, 30, 0, 0, 0, 0, 64, 6, 0, 0, 127, 0, 0, 1, 10, 0, 0, 2,
   19, 136, 23, 112, 0, 0, 0, 0, 0, 0, 0, 0, 80, 0, 0, 0, 0, 0, 0, 0]

/-- The corrupted-length TCP frame as a buffer. -/
def tcpFrame : Packet := fun i => tcpFrameBytes.getD i 0

/-- The TCP frame with its data-offset nibble lowered to 4, so the
data-offset field encodes 16 bytes, below the 20-byte minimum. -/
def tcpBadOffBytes : List Nat :=
  [0, 0, 0, 0, 0, 0, 0, 0, 0, 0, 0, 0, 8, 0,
   69, 0, 0, 30, 0, 0, 0, 0, 64, 6, 0, 0, 127, 0, 0, 1, 10, 0, 0, 2,
   19, 136, 23, 112, 0, 0, 0, 0, 0, 0, 0, 0, 64, 0, 0, 0, 0, 0, 0, 0]

/-- The low-data-offset TCP frame as a buffer. -/
def tcpBadOffFrame : Packet := fun i => tcpBadOffBytes.getD i 0

/-- A frame whose IP version/IHL byte is 0x43: version 4, IHL 3, so the
header-length field encodes 12 bytes, below the 20-byte minimum. -/
def smallIHLFrame : Packet := fun i => if i = 14 then 67 else 0

/-- The scenario frame with its protocol byte set to 1 (ICMP) and a
non-local destination. -/
def icmpFrameBytes : List Nat :=
  [0, 0, 0, 0, 0, 0, 0, 0, 0, 0, 0, 0, 8, 0,
   69, 0, 0, 28, 0, 0, 0, 0, 64, 1, 0, 0, 127, 0, 0, 1, 10, 0, 0, 2,
   0, 0, 0, 0, 0, 0, 0, 0]

/-- The ICMP frame as a buffer. -/
def icmpFrame : Packet := fun i => icmpFrameBytes.getD i 0

/-- The code's `match_val` only ever takes the values 0, 1, 2 or 3. -/
theorem match_val_mem (src dst plocal : String) :
    match_val src dst plocal = 0 ∨ match_val src dst plocal = 1 ∨
    match_val src dst plocal = 2 ∨ match_val src dst plocal = 3 := by
  unfold match_val
  split_ifs <;> simp

/-- C1 (counterexample): with a captured length of 0, `got_packet` still
dereferences header bytes (offsets 14 and beyond), so its header accesses
are not guarded by captured-length checks. -/
theorem c1_counterexample :
    withinCaplen (got_packet tcpFrame 0 "127.0.0.1").reads 0 = false := by decide

/-- C1 (amended): every header field access performed by `dump_UDP_packet`
is preceded by a check that the remaining captured bytes suffice for the
header being read: every byte offset it dereferences lies strictly below
the captured length. -/
theorem c1_dump_reads_bounded (p : Packet) (capture_len mv : Nat) :
    withinCaplen (dump_UDP_packet p capture_len mv).reads capture_len = true := by
  unfold withinCaplen dump_UDP_packet
  split_ifs <;> simp_all [List.all_eq_true] <;> omega

/-- C2: on the 54-byte TCP frame whose IP total-length field was corrupted
to 30, the computed payload length is -10, yet dissection completes and
`update_byte_count` is called with the negative length. -/
theorem c2_negative_payload_forwarded :
    size_payload tcpFrame = -10 ∧
    (got_packet tcpFrame 54 "127.0.0.1").calls = [⟨"5000", -10, true⟩] ∧
    (got_packet tcpFrame 54 "127.0.0.1").outcome = .tcpDone := by decide

/-- C3 (counterexample): on the 42-byte scenario frame with UDP length
field 8 and both addresses local, the two record calls carry byte length 8
(the raw length field), not 0 (the length field minus the 8-byte header). -/
theorem c3_counterexample :
    (got_packet udpFrame 42 "127.0.0.1").calls ≠
      [⟨"5000", 0, true⟩, ⟨"6000", 0, false⟩] ∧
    (got_packet udpFrame 42 "127.0.0.1").calls =
      [⟨"5000", 8, true⟩, ⟨"6000", 8, false⟩] := by decide

/-- C3 (amended): for every successfully dissected UDP packet, the byte
length handed to every accounting call is the full value of the UDP length
field (`ntohs(udp->uh_ulen)`), with no 8-byte header subtraction. -/
theorem c3_udp_length_field_forwarded (p : Packet) (capture_len mv : Nat)
    (h : (dump_UDP_packet p capture_len mv).outcome = .done) :
    ((dump_UDP_packet p capture_len mv).calls.all
      fun c => c.byteLen = (uh_ulen p : Int)) = true := by
  unfold dump_UDP_packet at h ⊢
  split_ifs at h ⊢ <;> simp_all [List.all_eq_true]

/-- C3 (witness): the amended claim evaluated on the scenario frame. -/
theorem c3_witness :
    ((dump_UDP_packet udpFrame 42 3).calls.all
      fun c => c.byteLen = (uh_ulen udpFrame : Int)) = true :=
  c3_udp_length_field_forwarded udpFrame 42 3 (by decide)

/-- C4: for every dissected transport packet, the accounting calls are
exactly those the spec's Dispatch section prescribes for the packet's
classification: one Sent call keyed by the source port when only the
source is local, one Received call keyed by the destination port when only
the destination is local, both (with the same length) when both are local,
and none when neither is. -/
theorem c4_dispatch_matches_classification (p : Packet) (caplen : Nat)
    (plocal : String) :
    (ip_p p = 17 → 20 ≤ size_ip p →
      (dump_UDP_packet p caplen
        (match_val (src_ip p) (dst_ip p) plocal)).outcome = .done →
      (got_packet p caplen plocal).calls =
        dispatchCalls (classificationOf (match_val (src_ip p) (dst_ip p) plocal))
          (uh_sport p) (uh_dport p) (uh_ulen p)) ∧
    (ip_p p = 6 → 20 ≤ size_ip p → 20 ≤ size_tcp p →
      (got_packet p caplen plocal).calls =
        dispatchCalls (classificationOf (match_val (src_ip p) (dst_ip p) plocal))
          (th_sport p) (th_dport p) (size_payload p)) := by
  have hmv := match_val_mem (src_ip p) (dst_ip p) plocal
  constructor
  · intro h17 h20 hdone
    simp only [got_packet]
    rw [if_neg (by omega), h17]
    norm_num
    unfold dump_UDP_packet at hdone ⊢
    split_ifs at hdone ⊢
    all_goals simp_all [dispatchCalls, classificationOf]
  · intro h6 h20 htcp
    simp only [got_packet]
    rw [if_neg (by omega), h6]
    norm_num
    rw [if_neg (by omega)]
    rcases hmv with h | h | h | h <;> rw [h] <;>
      simp [dispatchCalls, classificationOf]

/-- C4 (witness): the dispatch correspondence evaluated on the scenario
frame, whose classification is BothLocal. -/
theorem c4_witness :
    (got_packet udpFrame 42 "127.0.0.1").calls =
      dispatchCalls
        (classificationOf (match_val (src_ip udpFrame) (dst_ip udpFrame)
          "127.0.0.1"))
        (uh_sport udpFrame) (uh_dport udpFrame) (uh_ulen udpFrame) :=
  (c4_dispatch_matches_classification udpFrame 42 "127.0.0.1").1
    (by decide) (by decide) (by decide)

/-- C5 (counterexample): a frame delivered with captured length 0 (less
than 14) whose underlying buffer holds a TCP packet is fully dissected by
`got_packet` and produces an accounting call; dissection does not fail
with an Ethernet-header truncation report. -/
theorem c5_counterexample :
    (got_packet tcpFrame 0 "127.0.0.1").calls = [⟨"5000", -10, true⟩] ∧
    (got_packet tcpFrame 0 "127.0.0.1").outcome = .tcpDone := by decide

/-- C5 (amended): for every frame whose captured length is below 14,
`dump_UDP_packet` fails with the reason "Ethernet header", makes no
accounting call and reads no packet byte. -/
theorem c5_short_frame_fails (p : Packet) (capture_len mv : Nat)
    (h : capture_len < 14) :
    dump_UDP_packet p capture_len mv = ⟨.tooShort .ethernetHdr, [], []⟩ := by
  unfold dump_UDP_packet
  rw [if_pos h]

/-- C5 (witness): the amended claim evaluated at captured length 13. -/
theorem c5_witness :
    dump_UDP_packet udpFrame 13 0 = ⟨.tooShort .ethernetHdr, [], []⟩ :=
  c5_short_frame_fails udpFrame 13 0 (by decide)

/-- C6: whenever the IP header-length field encodes fewer than 20 bytes,
`got_packet` fails at the IP stage with the invalid-header-length report,
makes no accounting call, and has read only the version/IHL byte — the
undersized length is never used to compute an offset, and never clamped. -/
theorem c6_small_ihl_fails (p : Packet) (caplen : Nat) (plocal : String)
    (h : size_ip p < 20) :
    got_packet p caplen plocal = ⟨.invalidIPHeaderLen, [], [14]⟩ := by
  unfold got_packet
  rw [if_pos h]

/-- C6 (witness): the claim evaluated on the frame whose IHL nibble is 3. -/
theorem c6_witness :
    size_ip smallIHLFrame = 12 ∧
    got_packet smallIHLFrame 42 "10.0.0.1" = ⟨.invalidIPHeaderLen, [], [14]⟩ :=
  ⟨by decide, c6_small_ihl_fails smallIHLFrame 42 "10.0.0.1" (by decide)⟩

/-- C7 (counterexample): a TCP frame delivered with captured length 14 —
zero captured bytes remain after the Ethernet header — is dissected to
completion with an accounting call: no "TCP header length" (nor
"TCP header with options") failure occurs. -/
theorem c7_counterexample :
    (got_packet tcpFrame 14 "127.0.0.1").outcome = .tcpDone ∧
    (got_packet tcpFrame 14 "127.0.0.1").calls ≠ [] := by decide

/-- C7 (amended): on the TCP path, dissection fails — with the
"Invalid TCP header length" report — exactly when the data-offset field
times 4 is below 20, and at that point the port fields have not been read;
otherwise the TCP dispatch runs.  The captured length is never consulted:
the result is identical for any two captured lengths. -/
theorem c7_tcp_offset_check (p : Packet) (caplen caplen' : Nat)
    (plocal : String) (h6 : ip_p p = 6) (h20 : 20 ≤ size_ip p) :
    (14 + size_ip p ∉ gotBaseReads ++ [14 + size_ip p + 12]) ∧
    (size_tcp p < 20 →
      got_packet p caplen plocal =
        ⟨.invalidTCPHeaderLen, [], gotBaseReads ++ [14 + size_ip p + 12]⟩) ∧
    (20 ≤ size_tcp p →
      ((got_packet p caplen plocal).outcome = .tcpDone ∨
       (got_packet p caplen plocal).outcome = .tcpNoMatch)) ∧
    got_packet p caplen plocal = got_packet p caplen' plocal := by
  refine ⟨?_, ?_, ?_, ?_⟩
  · simp [gotBaseReads]
    omega
  · intro hlt
    simp only [got_packet]
    split_ifs <;> first | rfl | omega
  · intro hge
    simp only [got_packet]
    split_ifs <;> first | (left; rfl) | (right; rfl) | omega
  · simp only [got_packet]
    split_ifs <;> first | rfl | omega

/-- C7 (witness): the amended claim evaluated on the TCP frame whose
data-offset nibble is 4, at captured lengths 54 and 7. -/
theorem c7_witness :
    got_packet tcpBadOffFrame 54 "127.0.0.1" =
      ⟨.invalidTCPHeaderLen, [],
       gotBaseReads ++ [14 + size_ip tcpBadOffFrame + 12]⟩ ∧
    got_packet tcpBadOffFrame 54 "127.0.0.1" =
      got_packet tcpBadOffFrame 7 "127.0.0.1" :=
  ⟨(c7_tcp_offset_check tcpBadOffFrame 54 7 "127.0.0.1" (by decide)
      (by decide)).2.1 (by decide),
   (c7_tcp_offset_check tcpBadOffFrame 54 7 "127.0.0.1" (by decide)
      (by decide)).2.2.2⟩

/-- C8: the code's classification agrees with the spec rule over the local
address set the program uses (the literal "localhost" plus the configured
`plocal_ip`): BothLocal when both addresses are in the set, SourceIsLocal
when only the source is, DestinationIsLocal when only the destination is,
NoMatch otherwise; and re-running it on the same inputs yields the same
result. -/
theorem c8_classification_rule (src dst plocal : String) :
    classificationOf (match_val src dst plocal) =
      classify src dst ["localhost", plocal] ∧
    match_val src dst plocal = match_val src dst plocal := by
  refine ⟨?_, rfl⟩
  by_cases hs : is_local src plocal <;> by_cases hd : is_local dst plocal <;>
    simp_all [is_local, classify, match_val, classificationOf]

/-- C9: for every frame whose protocol field is neither TCP (6) nor
UDP (17), `got_packet` makes no accounting call and its outcome is one of
the protocol reports (ICMP, plain IP, unknown), not a parse failure. -/
theorem c9_unhandled_protocol (p : Packet) (caplen : Nat) (plocal : String)
    (h20 : 20 ≤ size_ip p) (h6 : ip_p p ≠ 6) (h17 : ip_p p ≠ 17) :
    (got_packet p caplen plocal).calls = [] ∧
    (got_packet p caplen plocal).outcome.isParseFailure = false ∧
    ((got_packet p caplen plocal).outcome = .protoICMP ∨
     (got_packet p caplen plocal).outcome = .protoIP ∨
     (got_packet p caplen plocal).outcome = .protoUnknown) := by
  simp only [got_packet]
  split_ifs <;> first | omega | simp [GotOutcome.isParseFailure]

/-- C9 (witness): the claim evaluated on the ICMP frame. -/
theorem c9_witness :
    (got_packet icmpFrame 42 "10.9.9.9").calls = [] ∧
    (got_packet icmpFrame 42 "10.9.9.9").outcome.isParseFailure = false ∧
    ((got_packet icmpFrame 42 "10.9.9.9").outcome = .protoICMP ∨
     (got_packet icmpFrame 42 "10.9.9.9").outcome = .protoIP ∨
     (got_packet icmpFrame 42 "10.9.9.9").outcome = .protoUnknown) :=
  c9_unhandled_protocol icmpFrame 42 "10.9.9.9" (by decide) (by decide)
    (by decide)

/-- C10: locality is decided by string comparison of the rendered address
against exactly the literal "localhost" and the configured `plocal_ip`:
when both rendered addresses differ from both strings the classification
value is 0 (NoMatch), and the rendered loopback address "127.0.0.1" passes
the locality test exactly when `plocal_ip` is the string "127.0.0.1". -/
theorem c10_string_match_locality (p : Packet) (plocal : String) :
    (src_ip p ≠ "localhost" → src_ip p ≠ plocal →
     dst_ip p ≠ "localhost" → dst_ip p ≠ plocal →
     match_val (src_ip p) (dst_ip p) plocal = 0) ∧
    (is_local (inet_ntoa 127 0 0 1) plocal = true ↔ plocal = "127.0.0.1") := by
  constructor
  · intro h1 h2 h3 h4
    simp [match_val, is_local, h1, h2, h3, h4]
  · have hrep : inet_ntoa 127 0 0 1 = "127.0.0.1" := by decide
    rw [hrep]
    unfold is_local
    simp only [Bool.or_eq_true, beq_iff_eq]
    constructor
    · rintro (h | h)
      · exact absurd h (by decide)
      · exact h.symm
    · intro h
      exact Or.inr h.symm

/-- C10 (witness): a packet whose rendered addresses (127.0.0.1 and
10.0.0.2) both differ from "localhost" and from a configured local
address 192.168.1.5 is classified NoMatch. -/
theorem c10_witness :
    match_val (src_ip tcpFrame) (dst_ip tcpFrame) "192.168.1.5" = 0 :=
  (c10_string_match_locality tcpFrame "192.168.1.5").1 (by decide) (by decide)
    (by decide) (by decide)

end Sniffer
